import Mathlib

/-!
Verification development for the asynchronous transfer-streaming engine of
cpboyd/cyusb_linux.  The engine appears twice in the repository:

* `gui_src/streamer.cpp` — the interactive streamer (functions
  `xfer_callback`, `free_transfer_buffers`, `streamer_thread_func`,
  `streamer_start_xfer`, `streamer_stop_xfer`, `streamer_is_running`);
* `src/09_cyusb_performance.cpp` — the duration-bound CLI benchmark
  (functions `xfer_callback`, `free_transfer_buffers`, `main`).

The definitions below are a shallow embedding of that C code.  Machine
`unsigned int` counters are modelled as `Nat` (no claim depends on 32-bit
wrap-around), the `volatile int rqts_in_flight` counter as `Int`, and the
clock (`gettimeofday`) as an explicit environment input carrying the elapsed
microseconds of the closing window.
-/

set_option autoImplicit false

namespace Cyusb

/-! libusb transfer-type codes (`libusb.h`: `LIBUSB_TRANSFER_TYPE_*`). -/

def LIBUSB_TRANSFER_TYPE_CONTROL : Nat := 0
def LIBUSB_TRANSFER_TYPE_ISOCHRONOUS : Nat := 1
def LIBUSB_TRANSFER_TYPE_BULK : Nat := 2
def LIBUSB_TRANSFER_TYPE_INTERRUPT : Nat := 3

/-- The transfer types handled by the `switch (eptype)` statements of both
`xfer_callback`s (resubmission) and both priming loops: `BULK`, `INTERRUPT`
and `ISOCHRONOUS` each submit the transfer; every other value falls into the
`default:` case, which does nothing. -/
def supported_eptype (t : Nat) : Bool :=
  t == LIBUSB_TRANSFER_TYPE_BULK || t == LIBUSB_TRANSFER_TYPE_INTERRUPT ||
    t == LIBUSB_TRANSFER_TYPE_ISOCHRONOUS

/-- The engine configuration set before a run (`streamer_set_params` in
`streamer.cpp`; command-line parsing plus descriptor lookup in
`09_cyusb_performance.cpp`): endpoint address, transfer type `eptype`,
maximum packet size `pktsize`, request size in packets `reqsize` and the
queue depth `queuedepth`. -/
structure Config where
  endpoint : Nat
  eptype : Nat
  pktsize : Nat
  reqsize : Nat
  queuedepth : Nat
deriving Repr, DecidableEq

/-- One entry of `transfer->iso_packet_desc`: the per-micro-frame completion
status (`status == LIBUSB_TRANSFER_COMPLETED`) and `actual_length`. -/
structure PacketDesc where
  status_completed : Bool
  actual_length : Nat
deriving Repr, DecidableEq

/-- The observable part of a completed `struct libusb_transfer`: the
whole-request status (`transfer->status == LIBUSB_TRANSFER_COMPLETED`) and
the array of isochronous packet descriptors. -/
structure TransferOutcome where
  status_completed : Bool
  iso_packet_desc : List PacketDesc
deriving Repr, DecidableEq

/-- The global counters shared by the submission path and the completion
path (file-scope variables of both source files).  `transfer_perf` exists
only in `streamer.cpp` (the CLI benchmark prints the rate instead of storing
it); it holds `none` when the stored value is not a well-defined number (see
`compute_rate`). -/
structure EngineState where
  success_count : Nat
  failure_count : Nat
  transfer_size : Nat
  transfer_index : Nat
  transfer_perf : Option Nat
  rqts_in_flight : Int
  stop_transfers : Bool
deriving Repr, DecidableEq

/-- The counter values installed by `streamer_start_xfer` before the worker
thread is created (all zero, stop flag cleared); also the initial values of
the file-scope variables. -/
def resetEngine : EngineState :=
  ⟨0, 0, 0, 0, some 0, 0, false⟩

/-- Environment inputs consumed by one `xfer_callback` invocation: the
elapsed microseconds `end_ts - start_ts` that `gettimeofday` yields if this
completion closes the window, and whether `libusb_submit_transfer` returns 0
on the resubmission attempt. -/
structure CbEnv where
  elapsed_time : Nat
  submit_ok : Bool
deriving Repr, DecidableEq

/-- The rate computation of both `xfer_callback`s:
`performance = ((double)transfer_size / 1024) / ((double)elapsed_time / 1000000)`.
The source performs this division unconditionally; when `elapsed_time = 0`
the quotient is not a well-defined number (IEEE doubles yield `±inf` or
`NaN`, and `streamer.cpp` then casts that value to `unsigned int`, which is
undefined behaviour), so the embedding returns `none` exactly when the
divisor is zero and the exact rational quotient otherwise. -/
def compute_rate (transfer_size elapsed_time : Nat) : Option ℚ :=
  if elapsed_time = 0 then none
  else some (((transfer_size : ℚ) / 1024) / ((elapsed_time : ℚ) / 1000000))

/-- The isochronous accounting loop of both `xfer_callback`s: iterate `i`
over `0 ≤ i < reqsize` and add `iso_packet_desc[i].actual_length` whenever
`iso_packet_desc[i].status == LIBUSB_TRANSFER_COMPLETED`. -/
def iso_packet_sum (reqsize : Nat) (pkts : List PacketDesc) : Nat :=
  (((pkts.take reqsize).filter (fun p => p.status_completed)).map
    (fun p => p.actual_length)).sum

/-- Result of one callback invocation: the updated counters and, when this
completion closed the window, the rate value the code publishes (stored into
`transfer_perf` by the streamer, printed by the CLI benchmark). -/
structure CbResult where
  state : EngineState
  published : Option (Option ℚ)
deriving Repr, DecidableEq

/-- `xfer_callback` of `gui_src/streamer.cpp` (lines 103–185).  Field by
field: failure/success classification and `size` (lines 112–134), window
accounting and rate publication (lines 137–154, the rate is cast to
`unsigned int` and stored in `transfer_perf`), the in-flight decrement
(line 157) and the conditional resubmission `switch` (lines 160–184). -/
def gui_xfer_callback (cfg : Config) (env : CbEnv) (t : TransferOutcome)
    (s : EngineState) : CbResult :=
  let failure_count := if t.status_completed then s.failure_count else s.failure_count + 1
  let success_count := if t.status_completed then s.success_count + 1 else s.success_count
  let size : Nat :=
    if t.status_completed then
      if cfg.eptype = LIBUSB_TRANSFER_TYPE_ISOCHRONOUS then
        iso_packet_sum cfg.reqsize t.iso_packet_desc
      else
        cfg.reqsize * cfg.pktsize
    else 0
  let size_acc := s.transfer_size + size
  let index_acc := s.transfer_index + 1
  let published : Option (Option ℚ) :=
    if index_acc = cfg.queuedepth then some (compute_rate size_acc env.elapsed_time) else none
  let transfer_perf :=
    if index_acc = cfg.queuedepth then
      (compute_rate size_acc env.elapsed_time).map (fun q => (⌊q⌋).toNat)
    else s.transfer_perf
  let transfer_index := if index_acc = cfg.queuedepth then 0 else index_acc
  let transfer_size := if index_acc = cfg.queuedepth then 0 else size_acc
  let rqts_in_flight := s.rqts_in_flight - 1
  let rqts_in_flight :=
    if !s.stop_transfers && supported_eptype cfg.eptype && env.submit_ok then
      rqts_in_flight + 1
    else rqts_in_flight
  ⟨⟨success_count, failure_count, transfer_size, transfer_index, transfer_perf,
    rqts_in_flight, s.stop_transfers⟩, published⟩

/-- `xfer_callback` of `src/09_cyusb_performance.cpp` (lines 46–124).  Same
logic as the streamer's callback except that the in-flight decrement comes
first (line 54) and the window rate is printed (line 93) rather than stored
— there is no `transfer_perf` variable in this file, so that field is left
unchanged. -/
def cli_xfer_callback (cfg : Config) (env : CbEnv) (t : TransferOutcome)
    (s : EngineState) : CbResult :=
  let inflight_dec := s.rqts_in_flight - 1
  let failure_count := if t.status_completed then s.failure_count else s.failure_count + 1
  let success_count := if t.status_completed then s.success_count + 1 else s.success_count
  let size : Nat :=
    if t.status_completed then
      if cfg.eptype = LIBUSB_TRANSFER_TYPE_ISOCHRONOUS then
        iso_packet_sum cfg.reqsize t.iso_packet_desc
      else
        cfg.reqsize * cfg.pktsize
    else 0
  let size_acc := s.transfer_size + size
  let index_acc := s.transfer_index + 1
  let published : Option (Option ℚ) :=
    if index_acc = cfg.queuedepth then some (compute_rate size_acc env.elapsed_time) else none
  let transfer_index := if index_acc = cfg.queuedepth then 0 else index_acc
  let transfer_size := if index_acc = cfg.queuedepth then 0 else size_acc
  let rqts_in_flight :=
    if !s.stop_transfers && supported_eptype cfg.eptype && env.submit_ok then
      inflight_dec + 1
    else inflight_dec
  ⟨⟨success_count, failure_count, transfer_size, transfer_index, s.transfer_perf,
    rqts_in_flight, s.stop_transfers⟩, published⟩

/-! ## Transfer descriptor pool

`databuffers` and `transfers` are two heap arrays of `queuedepth` pointers
each (allocated with `calloc`, hence initially all `NULL`).  An array is
`none` when its own `calloc` failed or after it has been passed to `free`;
a slot is `none` while it holds `NULL`. -/

/-- The two pointer arrays of both programs. -/
structure Pool (α β : Type) where
  databuffers : Option (List (Option α))
  transfers : Option (List (Option β))
deriving Repr, DecidableEq

/-- One loop of `free_transfer_buffers` (either file): if the array pointer
is non-`NULL`, free every non-`NULL` slot, set each slot to `NULL`, and
finally `free` the array itself.  Returns the resulting array (gone) and
the list of slot contents that were freed. -/
def free_array {α : Type} (arr : Option (List (Option α))) :
    Option (List (Option α)) × List α :=
  match arr with
  | none => (none, [])
  | some l => (none, l.filterMap id)

/-- `free_transfer_buffers` (`streamer.cpp` lines 188–214;
`09_cyusb_performance.cpp` lines 127–153 — the two differ only in which
array is processed first, which does not affect the result).  Returns the
released pool together with the freed transfer structures and data
buffers. -/
def free_transfer_buffers_model {α β : Type} (p : Pool α β) :
    Pool α β × List β × List α :=
  ((⟨(free_array p.databuffers).1, (free_array p.transfers).1⟩ : Pool α β),
    (free_array p.transfers).2, (free_array p.databuffers).2)

/-- The allocation loop of `streamer_thread_func` (lines 251–261) and of
`main` in the CLI benchmark (lines 386–396): for each slot `i` (starting at
`i`, `n` slots remaining) store `malloc`'s result in `databuffers[i]` and
`libusb_alloc_transfer`'s result in `transfers[i]`; if either is `NULL`,
set `allocfail` and `break`, leaving the remaining slots as `calloc` left
them (`NULL`).  Returns the two slot lists and the `allocfail` flag. -/
def alloc_go {α β : Type} (bufs : Nat → Option α) (xfrs : Nat → Option β) :
    Nat → Nat → List (Option α) × List (Option β) × Bool
  | _, 0 => ([], [], false)
  | i, n + 1 =>
    let b := bufs i
    let x := xfrs i
    if b.isNone || x.isNone then
      (b :: List.replicate n none, x :: List.replicate n none, true)
    else
      let rest := alloc_go bufs xfrs (i + 1) n
      (b :: rest.1, x :: rest.2.1, rest.2.2)

/-- The full allocation phase (`streamer.cpp` lines 244–267;
`09_cyusb_performance.cpp` lines 379–400): the two `calloc`s of the pointer
arrays (`dbArrayOk`/`trArrayOk` say whether each returned non-`NULL`),
followed — only when both succeeded — by the per-slot allocation loop;
otherwise `allocfail` is set immediately.  Returns the pool and the
`allocfail` flag. -/
def allocate_phase {α β : Type} (dbArrayOk trArrayOk : Bool)
    (bufs : Nat → Option α) (xfrs : Nat → Option β) (qd : Nat) :
    Pool α β × Bool :=
  if dbArrayOk && trArrayOk then
    let r := alloc_go bufs xfrs 0 qd
    (⟨some r.1, some r.2.1⟩, r.2.2)
  else
    (⟨if dbArrayOk then some (List.replicate qd none) else none,
      if trArrayOk then some (List.replicate qd none) else none⟩, true)

/-! ## Start phase of the worker (handle check, allocation, priming) -/

/-- Observable events of the start phase of `streamer_thread_func`
(respectively of `main` in the CLI benchmark), in program order. -/
inductive ThreadEvent
  | allocPool
  | freeBuffers
  | captureStartTs
  | submitReq (slot : Nat) (ok : Bool)
deriving Repr, DecidableEq

def ThreadEvent.isSubmit : ThreadEvent → Bool
  | submitReq _ _ => true
  | _ => false

/-- How the start phase ended: early exit on a `NULL` device handle
(`streamer.cpp` lines 229–232), early exit after an allocation failure
(lines 270–274, the out-of-memory abort; the CLI benchmark returns
`-ENOMEM` there), or normal fall-through into the event loop after priming.
These are the only exits in the source — in particular there is no
configuration-rejection exit. -/
inductive ThreadResult
  | nullHandle
  | allocFail
  | primed
deriving Repr, DecidableEq

/-- The priming loop's submissions (`streamer.cpp` lines 280–310;
`09_cyusb_performance.cpp` lines 416–446) as a trace: for each slot the
`switch (eptype)` fills and submits the transfer for the three supported
types, while the `default:` case submits nothing. -/
def prime_trace (cfg : Config) (subOk : Nat → Bool) : List ThreadEvent :=
  (List.range cfg.queuedepth).filterMap (fun i =>
    if supported_eptype cfg.eptype then some (ThreadEvent.submitReq i (subOk i)) else none)

/-- Net effect of the priming loop on `rqts_in_flight`: one increment per
slot whose type is supported and whose `libusb_submit_transfer` returned
0. -/
def prime_count (cfg : Config) (subOk : Nat → Bool) : Int :=
  (((List.range cfg.queuedepth).filter
    (fun i => supported_eptype cfg.eptype && subOk i)).length : Int)

/-- Outcome of the start phase: the exit taken, the pool state at that
point, the event trace, and `rqts_in_flight` after priming. -/
structure ThreadStart where
  result : ThreadResult
  pool : Pool Unit Unit
  trace : List ThreadEvent
  rqts_in_flight : Int
deriving Repr, DecidableEq

/-- The start phase of `streamer_thread_func` (lines 228–312), identical in
structure to lines 378–446 of the CLI benchmark's `main`: check the device
handle, allocate the pool, on `allocfail` call `free_transfer_buffers` and
exit, otherwise capture `start_ts` with `gettimeofday` (line 277) and then
run the priming loop. -/
def streamer_thread_start (handleOk dbArrayOk trArrayOk : Bool)
    (bufs xfrs : Nat → Option Unit) (cfg : Config) (subOk : Nat → Bool) :
    ThreadStart :=
  if handleOk = false then
    ⟨.nullHandle, ⟨none, none⟩, [], 0⟩
  else if (allocate_phase dbArrayOk trArrayOk bufs xfrs cfg.queuedepth).2 then
    ⟨.allocFail,
      (free_transfer_buffers_model
        (allocate_phase dbArrayOk trArrayOk bufs xfrs cfg.queuedepth).1).1,
      [.allocPool, .freeBuffers], 0⟩
  else
    ⟨.primed, (allocate_phase dbArrayOk trArrayOk bufs xfrs cfg.queuedepth).1,
      .allocPool :: .captureStartTs :: prime_trace cfg subOk,
      prime_count cfg subOk⟩

/-- The priming loop's effect on the engine counters, as a fold over the
per-slot submission outcomes (`streamer.cpp` lines 280–310): each slot of a
supported type whose submission returns 0 increments `rqts_in_flight`. -/
def prime_loop (cfg : Config) (oks : List Bool) (s : EngineState) : EngineState :=
  oks.foldl
    (fun st ok =>
      if supported_eptype cfg.eptype && ok then
        { st with rqts_in_flight := st.rqts_in_flight + 1 }
      else st)
    s

/-! ## Lifecycle transition system

One run of the engine after a successful `streamer_start_xfer`: the worker
thread primes `queuedepth` slots, then pumps completions; `streamer_stop_xfer`
may set the stop flag at any time from another thread; the pool is freed
after the drain loop (`streamer.cpp` lines 332–342).  A completion is
delivered only for a request actually in flight (libusb invokes the callback
exactly once per successfully submitted transfer), which is the guard on the
`complete` step. -/

structure SysState where
  eng : EngineState
  primed : Nat
  freed : Bool
deriving Repr, DecidableEq

/-- State at worker-thread entry, right after `streamer_start_xfer` reset
the counters. -/
def initSys : SysState := ⟨resetEngine, 0, false⟩

/-- One atomic step of the run.  `prime` is one iteration of the priming
loop (lines 280–310); `complete` is one `xfer_callback` invocation from
`libusb_handle_events_timeout`, possible only after priming and only while
some request is in flight; `requestStop` is `streamer_stop_xfer` (line 70),
callable at any time; `free` is the `free_transfer_buffers` call at line
341, reached only after the event loop exited on `stop_transfers` and the
drain loop exited on `rqts_in_flight == 0`. -/
inductive Step (cfg : Config) : SysState → SysState → Prop
  | prime (s : SysState) (ok : Bool) (hf : s.freed = false)
      (hp : s.primed < cfg.queuedepth) :
      Step cfg s
        ⟨{ s.eng with rqts_in_flight := s.eng.rqts_in_flight +
            (if supported_eptype cfg.eptype && ok then 1 else 0) },
          s.primed + 1, false⟩
  | complete (s : SysState) (env : CbEnv) (t : TransferOutcome)
      (hf : s.freed = false) (hp : s.primed = cfg.queuedepth)
      (hin : 0 < s.eng.rqts_in_flight) :
      Step cfg s ⟨(gui_xfer_callback cfg env t s.eng).state, s.primed, false⟩
  | requestStop (s : SysState) :
      Step cfg s ⟨{ s.eng with stop_transfers := true }, s.primed, s.freed⟩
  | free (s : SysState) (hf : s.freed = false) (hp : s.primed = cfg.queuedepth)
      (hs : s.eng.stop_transfers = true) (hin : s.eng.rqts_in_flight = 0) :
      Step cfg s ⟨s.eng, s.primed, true⟩

/-- States reachable during one run started from the reset state. -/
def Reachable (cfg : Config) (s : SysState) : Prop :=
  Relation.ReflTransGen (Step cfg) initSys s

/-- The ordering property claimed of the start phase: every timestamp
capture in the trace comes after every submission (the timestamp is taken
only once priming is finished). -/
def ts_captured_after_priming (tr : List ThreadEvent) : Prop :=
  ∀ (i j : Nat) (hi : i < tr.length) (hj : j < tr.length),
    tr.get ⟨i, hi⟩ = ThreadEvent.captureStartTs →
    (tr.get ⟨j, hj⟩).isSubmit = true → j < i

/-! ## Run control (`streamer_start_xfer`) -/

/-- Linux `errno` value `EBUSY`. -/
def EBUSY : Int := 16

/-- Linux `errno` value `ENOMEM`. -/
def ENOMEM : Int := 12

/-- The engine state together with the `app_running` flag queried by
`streamer_is_running`. -/
structure AppState where
  eng : EngineState
  app_running : Bool
deriving Repr, DecidableEq

/-- `streamer_start_xfer` (`streamer.cpp` lines 351–375): return `-EBUSY`
untouched if already running; otherwise reset all counters and the stop
flag, set `app_running`, and create the worker thread — on thread-creation
failure clear `app_running` again and return `-ENOMEM`.  `threadCreateOk`
is whether `pthread_create` returned 0. -/
def streamer_start_xfer (threadCreateOk : Bool) (s : AppState) : Int × AppState :=
  if s.app_running then
    (-EBUSY, s)
  else if threadCreateOk then
    (0, ⟨resetEngine, true⟩)
  else
    (-ENOMEM, ⟨resetEngine, false⟩)

/-! ## Helper lemmas -/

lemma gui_cb_stop_flag (cfg : Config) (env : CbEnv) (t : TransferOutcome)
    (s : EngineState) :
    (gui_xfer_callback cfg env t s).state.stop_transfers = s.stop_transfers := rfl

lemma gui_cb_inflight (cfg : Config) (env : CbEnv) (t : TransferOutcome)
    (s : EngineState) :
    (gui_xfer_callback cfg env t s).state.rqts_in_flight =
      if !s.stop_transfers && supported_eptype cfg.eptype && env.submit_ok then
        s.rqts_in_flight
      else s.rqts_in_flight - 1 := by
  show (if !s.stop_transfers && supported_eptype cfg.eptype && env.submit_ok then
      s.rqts_in_flight - 1 + 1 else s.rqts_in_flight - 1) = _
  split <;> omega

lemma free_pool_fst {α β : Type} (p : Pool α β) :
    (free_transfer_buffers_model p).1 = ⟨none, none⟩ := by
  cases p with
  | mk db tr => cases db <;> cases tr <;> rfl

lemma step_stop_mono {cfg : Config} {s s' : SysState} (h : Step cfg s s')
    (hp : s.primed = cfg.queuedepth) (hs : s.eng.stop_transfers = true) :
    s'.primed = cfg.queuedepth ∧ s'.eng.stop_transfers = true ∧
      s'.eng.rqts_in_flight ≤ s.eng.rqts_in_flight := by
  cases h with
  | prime ok hf hplt => exact absurd hp (Nat.ne_of_lt hplt)
  | complete env t hf hp2 hin =>
    refine ⟨hp, ?_, ?_⟩
    · show (gui_xfer_callback cfg env t s.eng).state.stop_transfers = true
      rw [gui_cb_stop_flag]; exact hs
    · show (gui_xfer_callback cfg env t s.eng).state.rqts_in_flight ≤
        s.eng.rqts_in_flight
      rw [gui_cb_inflight]; split <;> omega
  | requestStop => exact ⟨hp, rfl, le_refl _⟩
  | free hf hp2 hs2 hin => exact ⟨hp, hs, le_refl _⟩

lemma rtg_stop_mono {cfg : Config} {s s' : SysState}
    (h : Relation.ReflTransGen (Step cfg) s s')
    (hp : s.primed = cfg.queuedepth) (hs : s.eng.stop_transfers = true) :
    s'.eng.rqts_in_flight ≤ s.eng.rqts_in_flight ∧
      s'.primed = cfg.queuedepth ∧ s'.eng.stop_transfers = true := by
  induction h with
  | refl => exact ⟨le_refl _, hp, hs⟩
  | tail hab hbc ih =>
    obtain ⟨h1, h2, h3⟩ := ih
    obtain ⟨g1, g2, g3⟩ := step_stop_mono hbc h2 h3
    exact ⟨le_trans g3 h1, g1, g2⟩

lemma reachable_inflight_inv {cfg : Config} {s : SysState} (h : Reachable cfg s) :
    0 ≤ s.eng.rqts_in_flight ∧ s.eng.rqts_in_flight ≤ (s.primed : Int) ∧
      s.primed ≤ cfg.queuedepth := by
  induction h with
  | refl => exact ⟨le_refl _, le_refl _, Nat.zero_le _⟩
  | tail hab hbc ih =>
    obtain ⟨h1, h2, h3⟩ := ih
    rename_i b c
    cases hbc with
    | prime ok hf hplt =>
      have hb : (0:Int) ≤ b.eng.rqts_in_flight +
            (if supported_eptype cfg.eptype && ok then 1 else 0) ∧
          b.eng.rqts_in_flight +
            (if supported_eptype cfg.eptype && ok then 1 else 0) ≤
            ((b.primed + 1 : Nat) : Int) := by
        constructor <;> split <;> push_cast <;> omega
      exact ⟨hb.1, hb.2, hplt⟩
    | complete env t hf hp hin =>
      have hb : (0:Int) ≤ (gui_xfer_callback cfg env t b.eng).state.rqts_in_flight ∧
          (gui_xfer_callback cfg env t b.eng).state.rqts_in_flight ≤
            (b.primed : Int) := by
        rw [gui_cb_inflight]
        constructor <;> split <;> omega
      exact ⟨hb.1, hb.2, h3⟩
    | requestStop => exact ⟨h1, h2, h3⟩
    | free hf hp hs hin => exact ⟨h1, h2, h3⟩

lemma prime_loop_inflight (cfg : Config) (hsup : supported_eptype cfg.eptype = true)
    (oks : List Bool) (s : EngineState) :
    (prime_loop cfg oks s).rqts_in_flight =
      s.rqts_in_flight + (oks.count true : Int) := by
  induction oks generalizing s with
  | nil => simp [prime_loop]
  | cons b l ih =>
    cases b with
    | false =>
      have hstep : prime_loop cfg (false :: l) s = prime_loop cfg l s := by
        simp [prime_loop, hsup]
      rw [hstep, ih]
      simp [List.count_cons]
    | true =>
      have hstep : prime_loop cfg (true :: l) s =
          prime_loop cfg l { s with rqts_in_flight := s.rqts_in_flight + 1 } := by
        simp [prime_loop, hsup]
      rw [hstep, ih]
      simp [List.count_cons]
      omega

/-! ## Claim theorems -/

/-- Claim C1, counterexample: on an isochronous endpoint (`eptype = 1`,
`reqsize = 2`), a request whose whole-request status is not success but in
which `k = 1` packet reports success with `actual_length = 512` contributes
0 bytes to the window total (and counts as a failure) — not the 512-byte
per-packet sum the claim requires ("never 0 when k > 0"). -/
theorem C1_counterexample :
    (gui_xfer_callback ⟨1, LIBUSB_TRANSFER_TYPE_ISOCHRONOUS, 512, 2, 4⟩ ⟨100, true⟩
        ⟨false, [⟨true, 512⟩, ⟨false, 0⟩]⟩ resetEngine).state.transfer_size = 0 ∧
    iso_packet_sum 2 [⟨true, 512⟩, ⟨false, 0⟩] = 512 ∧
    (gui_xfer_callback ⟨1, LIBUSB_TRANSFER_TYPE_ISOCHRONOUS, 512, 2, 4⟩ ⟨100, true⟩
        ⟨false, [⟨true, 512⟩, ⟨false, 0⟩]⟩ resetEngine).state.failure_count = 1 :=
  ⟨by decide, by decide, by decide⟩

/-- Claim C1 (amended): the per-packet summation applies only when the
whole-request status is success.  On an isochronous endpoint, a successful
request contributes exactly the sum of the actual lengths of its successful
packets (never the nominal `reqsize * pktsize`), and a request whose
whole-request status is not success contributes 0 and increments the
failure count. -/
theorem C1_iso_accounting (cfg : Config) (env : CbEnv) (t : TransferOutcome)
    (s : EngineState) (hiso : cfg.eptype = LIBUSB_TRANSFER_TYPE_ISOCHRONOUS)
    (hw : s.transfer_index + 1 ≠ cfg.queuedepth) :
    (t.status_completed = true →
      (gui_xfer_callback cfg env t s).state.transfer_size =
        s.transfer_size + iso_packet_sum cfg.reqsize t.iso_packet_desc ∧
      (gui_xfer_callback cfg env t s).state.success_count = s.success_count + 1) ∧
    (t.status_completed = false →
      (gui_xfer_callback cfg env t s).state.transfer_size = s.transfer_size ∧
      (gui_xfer_callback cfg env t s).state.failure_count = s.failure_count + 1) := by
  constructor <;> intro h <;>
    exact ⟨by simp [gui_xfer_callback, hiso, hw, h], by simp [gui_xfer_callback, hiso, hw, h]⟩

/-- Witness for `C1_iso_accounting` at a concrete isochronous completion
with one successful and one failed packet. -/
theorem C1_iso_accounting_witness :
    ((⟨true, [⟨true, 512⟩, ⟨false, 0⟩]⟩ : TransferOutcome).status_completed = true →
      (gui_xfer_callback ⟨1, LIBUSB_TRANSFER_TYPE_ISOCHRONOUS, 512, 2, 4⟩ ⟨100, true⟩
          ⟨true, [⟨true, 512⟩, ⟨false, 0⟩]⟩ resetEngine).state.transfer_size =
        resetEngine.transfer_size + iso_packet_sum 2 [⟨true, 512⟩, ⟨false, 0⟩] ∧
      (gui_xfer_callback ⟨1, LIBUSB_TRANSFER_TYPE_ISOCHRONOUS, 512, 2, 4⟩ ⟨100, true⟩
          ⟨true, [⟨true, 512⟩, ⟨false, 0⟩]⟩ resetEngine).state.success_count =
        resetEngine.success_count + 1) ∧
    ((⟨true, [⟨true, 512⟩, ⟨false, 0⟩]⟩ : TransferOutcome).status_completed = false →
      (gui_xfer_callback ⟨1, LIBUSB_TRANSFER_TYPE_ISOCHRONOUS, 512, 2, 4⟩ ⟨100, true⟩
          ⟨true, [⟨true, 512⟩, ⟨false, 0⟩]⟩ resetEngine).state.transfer_size =
        resetEngine.transfer_size ∧
      (gui_xfer_callback ⟨1, LIBUSB_TRANSFER_TYPE_ISOCHRONOUS, 512, 2, 4⟩ ⟨100, true⟩
          ⟨true, [⟨true, 512⟩, ⟨false, 0⟩]⟩ resetEngine).state.failure_count =
        resetEngine.failure_count + 1) :=
  C1_iso_accounting ⟨1, LIBUSB_TRANSFER_TYPE_ISOCHRONOUS, 512, 2, 4⟩ ⟨100, true⟩
    ⟨true, [⟨true, 512⟩, ⟨false, 0⟩]⟩ resetEngine rfl (by decide)

/-- Claim C2: once the stop flag is set the completion handler never
resubmits — it strictly decrements the in-flight count; consequently, in
the post-priming phase every reachable sequence of steps taken with the
stop flag set leaves the in-flight count non-increasing; and the only step
that releases the transfer buffers requires the in-flight count to be zero
(and the stop flag set) at that moment. -/
theorem C2_stop_drain_release :
    (∀ (cfg : Config) (env : CbEnv) (t : TransferOutcome) (s : EngineState),
        s.stop_transfers = true →
        (gui_xfer_callback cfg env t s).state.rqts_in_flight = s.rqts_in_flight - 1) ∧
    (∀ (cfg : Config) (s s' : SysState), s.primed = cfg.queuedepth →
        s.eng.stop_transfers = true →
        Relation.ReflTransGen (Step cfg) s s' →
        s'.eng.rqts_in_flight ≤ s.eng.rqts_in_flight) ∧
    (∀ (cfg : Config) (s s' : SysState), Step cfg s s' → s.freed = false →
        s'.freed = true →
        s.eng.rqts_in_flight = 0 ∧ s.eng.stop_transfers = true) := by
  refine ⟨?_, ?_, ?_⟩
  · intro cfg env t s h
    rw [gui_cb_inflight]
    simp [h]
  · intro cfg s s' hp hs h
    exact (rtg_stop_mono h hp hs).1
  · intro cfg s s' h hf hf'
    cases h with
    | prime ok hfa hp => simp at hf'
    | complete env t hfa hp hin => simp at hf'
    | requestStop => simp [hf] at hf'
    | free hfa hp hs hin => exact ⟨hin, hs⟩

/-- Witness for `C2_stop_drain_release`: a concrete stopped completion, a
zero-length step sequence, and a concrete release step. -/
theorem C2_stop_drain_release_witness :
    (gui_xfer_callback ⟨1, 2, 512, 16, 4⟩ ⟨100, true⟩ ⟨true, []⟩
        ⟨0, 0, 0, 0, some 0, 3, true⟩).state.rqts_in_flight =
      (⟨0, 0, 0, 0, some 0, 3, true⟩ : EngineState).rqts_in_flight - 1 ∧
    (⟨⟨0, 0, 0, 0, some 0, 2, true⟩, 4, false⟩ : SysState).eng.rqts_in_flight ≤
      (⟨⟨0, 0, 0, 0, some 0, 2, true⟩, 4, false⟩ : SysState).eng.rqts_in_flight ∧
    ((⟨⟨0, 0, 0, 0, some 0, 0, true⟩, 4, false⟩ : SysState).eng.rqts_in_flight = 0 ∧
      (⟨⟨0, 0, 0, 0, some 0, 0, true⟩, 4, false⟩ : SysState).eng.stop_transfers = true) :=
  ⟨C2_stop_drain_release.1 ⟨1, 2, 512, 16, 4⟩ ⟨100, true⟩ ⟨true, []⟩
      ⟨0, 0, 0, 0, some 0, 3, true⟩ rfl,
   C2_stop_drain_release.2.1 ⟨1, 2, 512, 16, 4⟩
      ⟨⟨0, 0, 0, 0, some 0, 2, true⟩, 4, false⟩
      ⟨⟨0, 0, 0, 0, some 0, 2, true⟩, 4, false⟩ rfl rfl Relation.ReflTransGen.refl,
   C2_stop_drain_release.2.2 ⟨1, 2, 512, 16, 4⟩
      ⟨⟨0, 0, 0, 0, some 0, 0, true⟩, 4, false⟩
      ⟨⟨0, 0, 0, 0, some 0, 0, true⟩, 4, true⟩
      (Step.free ⟨⟨0, 0, 0, 0, some 0, 0, true⟩, 4, false⟩ rfl rfl rfl rfl) rfl rfl⟩

/-- Claim C3: the rate computation of both callbacks is the unguarded
division `(transfer_size / 1024) / (elapsed_time / 1000000)`.  At a zero
elapsed interval it yields no well-defined number (`none` in the embedding:
IEEE doubles give infinity or NaN there, and the streamer's cast of that
value to `unsigned int` is undefined behaviour) instead of the guarded 0
the claim requires; with a nonzero elapsed interval it yields the exact
nonnegative rate, e.g. 32768 bytes over 500000 µs is 64 KB/s. -/
theorem C3_rate_division_unguarded :
    compute_rate 32768 0 = none ∧ compute_rate 32768 500000 = some 64 := by
  constructor
  · rfl
  · norm_num [compute_rate]

/-- Claim C4: in every reachable state of a run the in-flight count lies in
`[0, queuedepth]`; the priming loop increments it once per successful
submission, so it equals `queuedepth` immediately after priming iff every
submission succeeded; and each completion changes it by exactly −1 (no
resubmission) or 0 (successful resubmission). -/
theorem C4_inflight_bounds :
    (∀ (cfg : Config) (s : SysState), Reachable cfg s →
        0 ≤ s.eng.rqts_in_flight ∧ s.eng.rqts_in_flight ≤ (cfg.queuedepth : Int)) ∧
    (∀ (cfg : Config) (oks : List Bool), supported_eptype cfg.eptype = true →
        oks.length = cfg.queuedepth →
        (prime_loop cfg oks resetEngine).rqts_in_flight = (oks.count true : Int) ∧
        ((prime_loop cfg oks resetEngine).rqts_in_flight = (cfg.queuedepth : Int) ↔
          ∀ b ∈ oks, b = true)) ∧
    (∀ (cfg : Config) (env : CbEnv) (t : TransferOutcome) (s : EngineState),
        (gui_xfer_callback cfg env t s).state.rqts_in_flight = s.rqts_in_flight - 1 ∨
        (gui_xfer_callback cfg env t s).state.rqts_in_flight = s.rqts_in_flight) := by
  refine ⟨?_, ?_, ?_⟩
  · intro cfg s h
    obtain ⟨h1, h2, h3⟩ := reachable_inflight_inv h
    exact ⟨h1, le_trans h2 (Nat.cast_le.mpr h3)⟩
  · intro cfg oks hsup hlen
    have hcount := prime_loop_inflight cfg hsup oks resetEngine
    constructor
    · rw [hcount]
      show (0 : Int) + _ = _
      rw [zero_add]
    · rw [hcount]
      show (0 : Int) + _ = _ ↔ _
      rw [zero_add, ← hlen, Nat.cast_inj, List.count_eq_length]
      constructor
      · intro h b hb; exact (h b hb).symm
      · intro h b hb; exact (h b hb).symm
  · intro cfg env t s
    rw [gui_cb_inflight]
    split
    · exact Or.inr rfl
    · exact Or.inl rfl

/-- Witness for `C4_inflight_bounds`: the initial state of a
`queuedepth = 2` bulk run, a fully successful priming sequence, and a
concrete completion. -/
theorem C4_inflight_bounds_witness :
    (0 ≤ initSys.eng.rqts_in_flight ∧
      initSys.eng.rqts_in_flight ≤ ((⟨1, 2, 512, 16, 2⟩ : Config).queuedepth : Int)) ∧
    ((prime_loop ⟨1, 2, 512, 16, 2⟩ [true, true] resetEngine).rqts_in_flight =
        ([true, true].count true : Int) ∧
      ((prime_loop ⟨1, 2, 512, 16, 2⟩ [true, true] resetEngine).rqts_in_flight =
          ((⟨1, 2, 512, 16, 2⟩ : Config).queuedepth : Int) ↔
        ∀ b ∈ [true, true], b = true)) ∧
    ((gui_xfer_callback ⟨1, 2, 512, 16, 2⟩ ⟨100, true⟩ ⟨true, []⟩
        resetEngine).state.rqts_in_flight = resetEngine.rqts_in_flight - 1 ∨
      (gui_xfer_callback ⟨1, 2, 512, 16, 2⟩ ⟨100, true⟩ ⟨true, []⟩
        resetEngine).state.rqts_in_flight = resetEngine.rqts_in_flight) :=
  ⟨C4_inflight_bounds.1 ⟨1, 2, 512, 16, 2⟩ initSys Relation.ReflTransGen.refl,
   C4_inflight_bounds.2.1 ⟨1, 2, 512, 16, 2⟩ [true, true] rfl rfl,
   C4_inflight_bounds.2.2 ⟨1, 2, 512, 16, 2⟩ ⟨100, true⟩ ⟨true, []⟩ resetEngine⟩

/-- Claim C5: `streamer_start_xfer` called while the engine is running
returns `-EBUSY` and leaves the whole application state — every counter,
the published rate, the in-flight count, the stop flag and the running
flag — unchanged. -/
theorem C5_busy_start (threadCreateOk : Bool) (s : AppState)
    (h : s.app_running = true) :
    streamer_start_xfer threadCreateOk s = (-EBUSY, s) := by
  simp [streamer_start_xfer, h]

/-- Witness for `C5_busy_start` at a running engine with nonzero
counters. -/
theorem C5_busy_start_witness :
    streamer_start_xfer true ⟨⟨5, 6, 7, 8, some 9, 3, true⟩, true⟩ =
      (-EBUSY, ⟨⟨5, 6, 7, 8, some 9, 3, true⟩, true⟩) :=
  C5_busy_start true ⟨⟨5, 6, 7, 8, some 9, 3, true⟩, true⟩ rfl

/-- Claim C10: `streamer_start_xfer` on an idle engine whose
`pthread_create` fails returns `-ENOMEM` with `app_running` false, but the
resulting state carries the freshly reset counters (`resetEngine`)
regardless of the previous run's counters — the failing start is not
side-effect-free. -/
theorem C10_start_thread_failure (s : AppState) (h : s.app_running = false) :
    streamer_start_xfer false s = (-ENOMEM, ⟨resetEngine, false⟩) := by
  simp [streamer_start_xfer, h]

/-- Witness for `C10_start_thread_failure`: an idle engine still holding
counters from a previous run loses them. -/
theorem C10_start_thread_failure_witness :
    streamer_start_xfer false ⟨⟨5, 6, 7, 8, some 9, 3, true⟩, false⟩ =
      (-ENOMEM, ⟨resetEngine, false⟩) :=
  C10_start_thread_failure ⟨⟨5, 6, 7, 8, some 9, 3, true⟩, false⟩ rfl

/-- Claim C6: if any single allocation fails, the start phase exits through
the out-of-memory path after releasing the pool (every slot ends `none`);
the release routine frees exactly the non-null slots of each array and
nulls them; it is idempotent; and it is safe on an entirely empty pool. -/
theorem C6_alloc_failure_atomic :
    (∀ (dbOk trOk : Bool) (bufs xfrs : Nat → Option Unit) (cfg : Config)
        (subOk : Nat → Bool),
        (allocate_phase dbOk trOk bufs xfrs cfg.queuedepth).2 = true →
        (streamer_thread_start true dbOk trOk bufs xfrs cfg subOk).result =
          ThreadResult.allocFail ∧
        (streamer_thread_start true dbOk trOk bufs xfrs cfg subOk).pool =
          ⟨none, none⟩) ∧
    (∀ (α : Type) (l : List (Option α)),
        (free_array (some l)).2 = l.filterMap id ∧ (free_array (some l)).1 = none) ∧
    (∀ (α β : Type) (p : Pool α β),
        free_transfer_buffers_model (free_transfer_buffers_model p).1 =
          ((free_transfer_buffers_model p).1, [], [])) ∧
    (∀ (α β : Type),
        free_transfer_buffers_model (⟨none, none⟩ : Pool α β) = (⟨none, none⟩, [], [])) := by
  refine ⟨?_, ?_, ?_, ?_⟩
  · intro dbOk trOk bufs xfrs cfg subOk h
    constructor
    · simp [streamer_thread_start, h]
    · simp [streamer_thread_start, h, free_pool_fst]
  · intro α l
    exact ⟨rfl, rfl⟩
  · intro α β p
    rw [free_pool_fst]
    rfl
  · intro α β
    rfl

/-- Witness for `C6_alloc_failure_atomic`: a run whose first buffer
allocation fails aborts and ends with a fully released pool; the release
routine applied to a partially filled pool and to an empty pool. -/
theorem C6_alloc_failure_atomic_witness :
    ((streamer_thread_start true true true (fun _ => none) (fun _ => some ())
        ⟨1, 2, 512, 16, 2⟩ (fun _ => true)).result = ThreadResult.allocFail ∧
      (streamer_thread_start true true true (fun _ => none) (fun _ => some ())
        ⟨1, 2, 512, 16, 2⟩ (fun _ => true)).pool = ⟨none, none⟩) ∧
    ((free_array (some ([some 5, none] : List (Option Nat)))).2 =
        ([some 5, none] : List (Option Nat)).filterMap id ∧
      (free_array (some ([some 5, none] : List (Option Nat)))).1 = none) ∧
    (free_transfer_buffers_model
        (free_transfer_buffers_model (⟨some [some 5], none⟩ : Pool Nat Nat)).1 =
      ((free_transfer_buffers_model (⟨some [some 5], none⟩ : Pool Nat Nat)).1, [], [])) ∧
    free_transfer_buffers_model (⟨none, none⟩ : Pool Nat Nat) = (⟨none, none⟩, [], []) :=
  ⟨C6_alloc_failure_atomic.1 true true (fun _ => none) (fun _ => some ())
      ⟨1, 2, 512, 16, 2⟩ (fun _ => true) (by decide),
   C6_alloc_failure_atomic.2.1 Nat [some 5, none],
   C6_alloc_failure_atomic.2.2.1 Nat Nat ⟨some [some 5], none⟩,
   C6_alloc_failure_atomic.2.2.2 Nat Nat⟩

/-- Claim C7, counterexample: with an unsupported transfer type
(`eptype = 0`, the control type) the start phase does not reject the
configuration before allocating — the pool allocation happens (`allocPool`
is in the trace) and the phase ends in the normal `primed` fall-through
rather than any error exit. -/
theorem C7_counterexample :
    supported_eptype (0 : Nat) = false ∧
    ThreadEvent.allocPool ∈
      (streamer_thread_start true true true (fun _ => some ()) (fun _ => some ())
        ⟨1, 0, 512, 16, 2⟩ (fun _ => true)).trace ∧
    (streamer_thread_start true true true (fun _ => some ()) (fun _ => some ())
      ⟨1, 0, 512, 16, 2⟩ (fun _ => true)).result = ThreadResult.primed :=
  ⟨rfl, by decide, by decide⟩

/-- Claim C7 (amended): an unsupported transfer type is not rejected at
all; the start phase allocates the pool first, the priming loop's
`default:` case submits nothing for such a type, the in-flight count stays
0, and the run proceeds as an empty run. -/
theorem C7_no_type_check (bufs xfrs : Nat → Option Unit) (cfg : Config)
    (subOk : Nat → Bool) (hns : supported_eptype cfg.eptype = false)
    (hal : (allocate_phase true true bufs xfrs cfg.queuedepth).2 = false) :
    (streamer_thread_start true true true bufs xfrs cfg subOk).result =
      ThreadResult.primed ∧
    ThreadEvent.allocPool ∈
      (streamer_thread_start true true true bufs xfrs cfg subOk).trace ∧
    prime_trace cfg subOk = [] ∧
    (streamer_thread_start true true true bufs xfrs cfg subOk).rqts_in_flight = 0 := by
  have hpt : prime_trace cfg subOk = [] := by
    simp [prime_trace, hns]
  have hpc : prime_count cfg subOk = 0 := by
    simp [prime_count, hns]
  refine ⟨?_, ?_, hpt, ?_⟩ <;> simp [streamer_thread_start, hal, hpt, hpc]

/-- Witness for `C7_no_type_check` at a concrete control-type
configuration. -/
theorem C7_no_type_check_witness :
    (streamer_thread_start true true true (fun _ => some ()) (fun _ => some ())
      ⟨1, 0, 512, 16, 2⟩ (fun _ => false)).result = ThreadResult.primed ∧
    ThreadEvent.allocPool ∈
      (streamer_thread_start true true true (fun _ => some ()) (fun _ => some ())
        ⟨1, 0, 512, 16, 2⟩ (fun _ => false)).trace ∧
    prime_trace ⟨1, 0, 512, 16, 2⟩ (fun _ => false) = [] ∧
    (streamer_thread_start true true true (fun _ => some ()) (fun _ => some ())
      ⟨1, 0, 512, 16, 2⟩ (fun _ => false)).rqts_in_flight = 0 :=
  C7_no_type_check (fun _ => some ()) (fun _ => some ()) ⟨1, 0, 512, 16, 2⟩
    (fun _ => false) rfl (by decide)

/-- Claim C8: for the same configuration, the same completion outcome and
the same starting counters, the interactive streamer's completion handler
and the CLI benchmark's completion handler produce identical success
counts, failure counts, window byte totals, window indices, published
rates, stop flags, and the identical net change to the in-flight count —
the different placement of the in-flight decrement inside the two handlers
does not change the result. -/
theorem C8_callbacks_equivalent (cfg : Config) (env : CbEnv) (t : TransferOutcome)
    (s : EngineState) :
    (gui_xfer_callback cfg env t s).state.success_count =
      (cli_xfer_callback cfg env t s).state.success_count ∧
    (gui_xfer_callback cfg env t s).state.failure_count =
      (cli_xfer_callback cfg env t s).state.failure_count ∧
    (gui_xfer_callback cfg env t s).state.transfer_size =
      (cli_xfer_callback cfg env t s).state.transfer_size ∧
    (gui_xfer_callback cfg env t s).state.transfer_index =
      (cli_xfer_callback cfg env t s).state.transfer_index ∧
    (gui_xfer_callback cfg env t s).published =
      (cli_xfer_callback cfg env t s).published ∧
    (gui_xfer_callback cfg env t s).state.rqts_in_flight - s.rqts_in_flight =
      (cli_xfer_callback cfg env t s).state.rqts_in_flight - s.rqts_in_flight ∧
    (gui_xfer_callback cfg env t s).state.stop_transfers =
      (cli_xfer_callback cfg env t s).state.stop_transfers :=
  ⟨rfl, rfl, rfl, rfl, rfl, rfl, rfl⟩

/-- Claim C9, counterexample: in a concrete all-successful bulk run with
`queuedepth = 2`, the start-phase trace is
`[allocPool, captureStartTs, submitReq 0, submitReq 1]`: the timestamp
capture at position 1 precedes the submission at position 2, so the
timestamp is not captured after priming. -/
theorem C9_counterexample :
    ¬ ts_captured_after_priming
        (streamer_thread_start true true true (fun _ => some ()) (fun _ => some ())
          ⟨1, 2, 512, 16, 2⟩ (fun _ => true)).trace := by
  intro h
  have h12 := h 1 2 (by decide) (by decide) (by decide) (by decide)
  exact absurd h12 (by decide)

/-- Claim C9 (amended): whenever allocation succeeds, the start timestamp
is captured immediately after pool allocation and before the priming loop:
the trace is `allocPool`, then `captureStartTs`, then only submission
events. -/
theorem C9_ts_before_priming (bufs xfrs : Nat → Option Unit) (cfg : Config)
    (subOk : Nat → Bool)
    (hal : (allocate_phase true true bufs xfrs cfg.queuedepth).2 = false) :
    (streamer_thread_start true true true bufs xfrs cfg subOk).trace =
      ThreadEvent.allocPool :: ThreadEvent.captureStartTs :: prime_trace cfg subOk ∧
    ∀ e ∈ prime_trace cfg subOk, e.isSubmit = true := by
  constructor
  · simp [streamer_thread_start, hal]
  · intro e he
    by_cases hs : supported_eptype cfg.eptype
    · simp [prime_trace, hs] at he
      obtain ⟨i, hi, rfl⟩ := he
      rfl
    · simp [prime_trace, hs] at he

/-- Witness for `C9_ts_before_priming` at a concrete bulk configuration. -/
theorem C9_ts_before_priming_witness :
    (streamer_thread_start true true true (fun _ => some ()) (fun _ => some ())
        ⟨1, 2, 512, 16, 2⟩ (fun _ => true)).trace =
      ThreadEvent.allocPool :: ThreadEvent.captureStartTs ::
        prime_trace ⟨1, 2, 512, 16, 2⟩ (fun _ => true) ∧
    ∀ e ∈ prime_trace ⟨1, 2, 512, 16, 2⟩ (fun _ => true), e.isSubmit = true :=
  C9_ts_before_priming (fun _ => some ()) (fun _ => some ()) ⟨1, 2, 512, 16, 2⟩
    (fun _ => true) (by decide)

end Cyusb
